import Mathlib

/-!
Shallow embedding of the shared exchange abstraction layer of the `trading`
repository: the error taxonomy (`src/errors/ExchangeError.ts`), the shared
base-class logic (`BaseExchange` in `src/base/BaseExchange.ts`: `handleError`,
`validateOrder`, `closeOrderMarket`, `closeOrderLimit`), the HTTP helper
(`makeRequest` in `src/utils/request.ts`) and the `Hyperliquid` adapter's
`createOrder`.

JavaScript numbers are modelled as `Rat`; JavaScript string/number falsiness
(`!x` true for `undefined`, `""`, `0`) is modelled on `Option String` /
`Option Rat` via `Option.getD` with the falsy default, so that e.g.
`p.symbol.getD "" = ""` holds exactly when the JS test `!params.symbol`
succeeds. Thrown exceptions are `Except.error` values; adapter calls are
oracle functions, and the order-closing methods additionally return the list
of adapter calls they performed, in order.
-/

/-- The class tag of a taxonomy error (`this.name = '...'` in each
constructor; doubles as the runtime class for `instanceof` checks, since each
subclass sets a distinct name). -/
inductive ErrorName where
  | exchangeError
  | authenticationError
  | invalidOrderError
  | insufficientFundsError
deriving DecidableEq, Repr

/-- `class ExchangeError extends Error { constructor(message, code?, httpStatus?) }`:
a taxonomy error value with its tag, human message, optional machine code and
optional HTTP status. -/
structure ExchangeError where
  name : ErrorName
  message : String
  code : Option String := none
  httpStatus : Option Nat := none
deriving DecidableEq, Repr

/-- `new ExchangeError(message, code?, httpStatus?)` — the generic kind. -/
def ExchangeError.make (message : String) (code : Option String)
    (httpStatus : Option Nat) : ExchangeError :=
  { name := ErrorName.exchangeError, message := message, code := code,
    httpStatus := httpStatus }

/-- `new AuthenticationError(message)`: `super(message, 'AUTH_ERROR', 401)`. -/
def AuthenticationError (message : String) : ExchangeError :=
  { name := ErrorName.authenticationError, message := message,
    code := some "AUTH_ERROR", httpStatus := some 401 }

/-- `new InsufficientFundsError(message)`: `super(message, 'INSUFFICIENT_FUNDS', 400)`. -/
def InsufficientFundsError (message : String) : ExchangeError :=
  { name := ErrorName.insufficientFundsError, message := message,
    code := some "INSUFFICIENT_FUNDS", httpStatus := some 400 }

/-- `new InvalidOrderError(message)`: `super(message, 'INVALID_ORDER', 400)`. -/
def InvalidOrderError (message : String) : ExchangeError :=
  { name := ErrorName.invalidOrderError, message := message,
    code := some "INVALID_ORDER", httpStatus := some 400 }

/-- A JavaScript value reaching a `catch (error)` site: either an instance of
one of the four taxonomy classes, or some other `Error` (message plus an
optional `code` property), or a non-`Error` value. -/
inductive JSError where
  | taxonomy (e : ExchangeError)
  | plain (message : String) (code : Option String)
  | nonError
deriving DecidableEq, Repr

/-- JS `s || d` for strings: `""` is falsy. -/
def strOr (s d : String) : String := if s = "" then d else s

/-- `BaseExchange.handleError(error, defaultMessage)` — the normalization
funnel. It always throws; the returned value is the thrown error. -/
def handleError (error : JSError) (defaultMessage : String) : ExchangeError :=
  match error with
  | JSError.taxonomy e => e
  | JSError.plain message (some code) =>
    if code = "AUTH_ERROR" then
      AuthenticationError (strOr message "Authentication failed")
    else if code = "INVALID_ORDER" then
      InvalidOrderError (strOr message "Invalid order parameters")
    else if code = "INSUFFICIENT_FUNDS" then
      InsufficientFundsError (strOr message "Insufficient funds")
    else if code = "NOT_FOUND" then
      InvalidOrderError (strOr message "Order not found")
    else
      ExchangeError.make (strOr message defaultMessage) (some code) none
  | JSError.plain message none =>
    ExchangeError.make (strOr message defaultMessage) none none
  | JSError.nonError =>
    ExchangeError.make defaultMessage none none

/-- C9: for every message, `AuthenticationError` carries code `AUTH_ERROR` and
HTTP status 401, `InvalidOrderError` carries code `INVALID_ORDER` and status
400, and `InsufficientFundsError` carries code `INSUFFICIENT_FUNDS` and
status 400. -/
theorem c9_taxonomy_codes (m : String) :
    (AuthenticationError m).code = some "AUTH_ERROR"
  ∧ (AuthenticationError m).httpStatus = some 401
  ∧ (InvalidOrderError m).code = some "INVALID_ORDER"
  ∧ (InvalidOrderError m).httpStatus = some 400
  ∧ (InsufficientFundsError m).code = some "INSUFFICIENT_FUNDS"
  ∧ (InsufficientFundsError m).httpStatus = some 400 := by
  refine ⟨rfl, rfl, rfl, rfl, rfl, rfl⟩

/-- C8 counterexample: all four taxonomy constructors accept the empty
message — construction does not fail, and the constructed error carries the
empty message, so not every constructed taxonomy error has non-empty message
text. -/
theorem c8_counterexample :
    (ExchangeError.make "" none none).message = ""
  ∧ (AuthenticationError "").message = ""
  ∧ (InvalidOrderError "").message = ""
  ∧ (InsufficientFundsError "").message = "" := by
  refine ⟨rfl, rfl, rfl, rfl⟩

/-- C8 amended: construction of any of the four taxonomy kinds never fails
and carries exactly the supplied message, even when that message is empty;
non-emptiness of the message is not enforced by construction. -/
theorem c8_amended (m : String) (c : Option String) (s : Option Nat) :
    (ExchangeError.make m c s).message = m
  ∧ (AuthenticationError m).message = m
  ∧ (InvalidOrderError m).message = m
  ∧ (InsufficientFundsError m).message = m := by
  refine ⟨rfl, rfl, rfl, rfl⟩

/-- C1: `handleError(e, d)` always throws: it rethrows `e` unchanged when `e`
is one of the four taxonomy kinds; otherwise when `e` carries a machine code
it throws `AuthenticationError` for `AUTH_ERROR`, `InvalidOrderError` for
`INVALID_ORDER` and for `NOT_FOUND`, `InsufficientFundsError` for
`INSUFFICIENT_FUNDS`, and a generic `ExchangeError` carrying the code for any
other code; when `e` carries no code it throws a generic `ExchangeError`
whose message is `e`'s message, or `d` when `e` has no message. -/
theorem c1_handleError_spec (e : JSError) (d : String) :
    (∀ te, e = JSError.taxonomy te → handleError e d = te)
  ∧ (∀ m c, e = JSError.plain m (some c) →
        (c = "AUTH_ERROR" → (handleError e d).name = ErrorName.authenticationError)
      ∧ (c = "INVALID_ORDER" → (handleError e d).name = ErrorName.invalidOrderError)
      ∧ (c = "NOT_FOUND" → (handleError e d).name = ErrorName.invalidOrderError)
      ∧ (c = "INSUFFICIENT_FUNDS" → (handleError e d).name = ErrorName.insufficientFundsError)
      ∧ (c ≠ "AUTH_ERROR" → c ≠ "INVALID_ORDER" → c ≠ "NOT_FOUND" →
         c ≠ "INSUFFICIENT_FUNDS" →
           (handleError e d).name = ErrorName.exchangeError
         ∧ (handleError e d).code = some c))
  ∧ (∀ m, e = JSError.plain m none →
        (handleError e d).name = ErrorName.exchangeError
      ∧ (handleError e d).code = none
      ∧ (handleError e d).message = (if m = "" then d else m))
  ∧ (e = JSError.nonError →
        (handleError e d).name = ErrorName.exchangeError
      ∧ (handleError e d).message = d) := by
  refine ⟨?_, ?_, ?_, ?_⟩
  · rintro te rfl; rfl
  · rintro m c rfl
    refine ⟨?_, ?_, ?_, ?_, ?_⟩
    · rintro rfl; rfl
    · rintro rfl; rfl
    · rintro rfl; rfl
    · rintro rfl; rfl
    · intro h1 h2 h3 h4
      simp only [handleError, if_neg h1, if_neg h2, if_neg h4, if_neg h3]
      exact ⟨rfl, rfl⟩
  · rintro m rfl
    refine ⟨rfl, rfl, ?_⟩
    simp only [handleError, ExchangeError.make, strOr]
  · rintro rfl; exact ⟨rfl, rfl⟩

/-- C1 witness: at the concrete failure carrying code `NOT_FOUND` and default
message `dflt`, `handleError` yields an `InvalidOrderError`. -/
theorem c1_handleError_spec_witness :
    (handleError (JSError.plain "boom" (some "NOT_FOUND")) "dflt").name
      = ErrorName.invalidOrderError :=
  ((c1_handleError_spec (JSError.plain "boom" (some "NOT_FOUND")) "dflt").2.1
    "boom" "NOT_FOUND" rfl).2.2.1 rfl

/-- `OrderParams` as seen at runtime: every field may be `undefined` (absent)
since `validateOrder` defends against that with truthiness checks. A field's
JS falsiness is `getD` with the falsy default (`""` / `0`). -/
structure OrderParams where
  symbol : Option String := none
  side : Option String := none
  type : Option String := none
  quantity : Option Rat := none
  price : Option Rat := none
  timeInForce : Option String := none
deriving DecidableEq, Repr

/-- `Balance`: asset ticker with free/locked/total amounts. -/
structure BalanceRec where
  asset : String
  free : Rat
  locked : Rat
  total : Rat
deriving DecidableEq, Repr

/-- `Order` (extends `OrderParams` with exchange-assigned fields). An absent
`orderId` is modelled as `""` (falsy). -/
structure Order where
  orderId : String
  symbol : String
  side : String
  type : String
  quantity : Rat
  price : Option Rat := none
  timeInForce : Option String := none
  status : String
  filledQuantity : Rat
  remainingQuantity : Rat
  avgPrice : Rat
  timestamp : Nat
deriving DecidableEq, Repr

/-- ASCII lower-casing of one character, as `toLowerCase()` acts on the
ASCII range (the only characters compared against the enum literals). -/
def lowerChar (c : Char) : Char :=
  if 'A' ≤ c ∧ c ≤ 'Z' then Char.ofNat (c.toNat + 32) else c

/-- `s.toLowerCase()` on the ASCII range, kernel-computable. -/
def jsToLower (s : String) : String :=
  String.mk (s.data.map lowerChar)

/-- `s.split(sep)` for a one-character separator, kernel-computable:
`"" ↦ [""]`, `"a--b" ↦ ["a", "", "b"]`, as in JavaScript. -/
def splitChars (sep : Char) : List Char → List (List Char)
  | [] => [[]]
  | c :: cs =>
    let rest := splitChars sep cs
    if c = sep then [] :: rest
    else
      match rest with
      | [] => [[c]]
      | h :: t => (c :: h) :: t

/-- `s.split('-')` and friends. -/
def jsSplit (s : String) (sep : Char) : List String :=
  (splitChars sep s.data).map String.mk

/-- Steps 1-7 of `BaseExchange.validateOrder` (the structural checks before
the balance check); first failure wins. JS conditions transcribed:
`!params.symbol` is `p.symbol.getD "" = ""`;
`!params.quantity || params.quantity <= 0` is `p.quantity.getD 0 ≤ 0`
(absent gives the falsy default 0, which is ≤ 0); likewise for `price`. -/
def structuralCheck (p : OrderParams) : Except ExchangeError Unit :=
  if p.symbol.getD "" = "" then
    Except.error (InvalidOrderError "Symbol is required")
  else if p.side.getD "" = "" then
    Except.error (InvalidOrderError "Side is required")
  else if p.type.getD "" = "" then
    Except.error (InvalidOrderError "Type is required")
  else if p.quantity.getD 0 ≤ 0 then
    Except.error (InvalidOrderError "Quantity must be greater than 0")
  else if ¬(jsToLower (p.side.getD "") = "buy" ∨ jsToLower (p.side.getD "") = "sell") then
    Except.error (InvalidOrderError "Invalid side")
  else if ¬(jsToLower (p.type.getD "") = "market" ∨ jsToLower (p.type.getD "") = "limit") then
    Except.error (InvalidOrderError "Invalid type")
  else if jsToLower (p.type.getD "") = "limit" ∧ p.price.getD 0 ≤ 0 then
    Except.error (InvalidOrderError "Price is required for limit orders and must be greater than 0")
  else
    Except.ok ()

/-- `const [baseAsset, quoteAsset] = params.symbol.split('-')`, first
component. -/
def baseAssetOf (p : OrderParams) : String :=
  (jsSplit (p.symbol.getD "") '-').getD 0 ""

/-- Second component of the symbol split (JS `undefined` when the symbol has
no `-`, modelled as `""`). -/
def quoteAssetOf (p : OrderParams) : String :=
  (jsSplit (p.symbol.getD "") '-').getD 1 ""

/-- `const asset = params.side === 'buy' ? quoteAsset : baseAsset` — note the
exact (case-sensitive) comparison. -/
def requiredAsset (p : OrderParams) : String :=
  if p.side = some "buy" then quoteAssetOf p else baseAssetOf p

/-- `params.type === 'market' || !params.price ? await getCurrentPrice(symbol)
: params.price` — the reference price used by the balance check. -/
def referencePrice (getCurrentPrice : String → Except ExchangeError Rat)
    (p : OrderParams) : Except ExchangeError Rat :=
  if p.type = some "market" ∨ p.price.getD 0 = 0 then
    getCurrentPrice (p.symbol.getD "")
  else
    Except.ok (p.price.getD 0)

/-- `params.side === 'buy' ? params.quantity * currentPrice : params.quantity`. -/
def requiredAmount (p : OrderParams) (currentPrice : Rat) : Rat :=
  if p.side = some "buy" then p.quantity.getD 0 * currentPrice
  else p.quantity.getD 0

/-- Rendering of a JS number into the interpolated message (the embedding's
number-to-string function). -/
def numStr (q : Rat) : String := toString q

/-- `` `Insufficient ${asset} balance. Required: ${requiredAmount}, Available: ${balance.free}` ``. -/
def insufficientMsg (asset : String) (required available : Rat) : String :=
  "Insufficient " ++ asset ++ " balance. Required: " ++ numStr required
    ++ ", Available: " ++ numStr available

/-- The `catch` inside the balance-check block: rethrow
`InsufficientFundsError` unchanged, funnel everything else through
`handleError(error, 'Failed to validate balance')`. -/
def balanceCatch (e : ExchangeError) : ExchangeError :=
  if e.name = ErrorName.insufficientFundsError then e
  else handleError (JSError.taxonomy e) "Failed to validate balance"

/-- The balance-sufficiency block of `BaseExchange.validateOrder` (step 8).
`getBalance` and `getCurrentPrice` are the instance methods, supplied as
oracles; both surface taxonomy errors (they each funnel through
`handleError` themselves). -/
def balanceCheck (getBalance : String → Except ExchangeError BalanceRec)
    (getCurrentPrice : String → Except ExchangeError Rat)
    (p : OrderParams) : Except ExchangeError Unit :=
  match getBalance (requiredAsset p) with
  | Except.error e => Except.error (balanceCatch e)
  | Except.ok balance =>
    match referencePrice getCurrentPrice p with
    | Except.error e => Except.error (balanceCatch e)
    | Except.ok currentPrice =>
      if balance.free < requiredAmount p currentPrice then
        Except.error (balanceCatch (InsufficientFundsError
          (insufficientMsg (requiredAsset p) (requiredAmount p currentPrice) balance.free)))
      else
        Except.ok ()

/-- `BaseExchange.validateOrder(params, { skipBalanceCheck })`. -/
def validateOrder (getBalance : String → Except ExchangeError BalanceRec)
    (getCurrentPrice : String → Except ExchangeError Rat)
    (p : OrderParams) (skipBalanceCheck : Bool) : Except ExchangeError Unit :=
  match structuralCheck p with
  | Except.error e => Except.error e
  | Except.ok _ =>
    if skipBalanceCheck then Except.ok ()
    else balanceCheck getBalance getCurrentPrice p

/-- The balance-check `catch` rethrows an `InsufficientFundsError` unchanged. -/
theorem balanceCatch_insufficient (m : String) :
    balanceCatch (InsufficientFundsError m) = InsufficientFundsError m := rfl

/-- Oracle standing for `getBalance` in cases where the balance check is
never reached. -/
def stubGetBalance : String → Except ExchangeError BalanceRec :=
  fun _ => Except.error (ExchangeError.make "balance oracle unused" none none)

/-- Oracle standing for `getCurrentPrice` in cases where the balance check is
never reached. -/
def stubGetPrice : String → Except ExchangeError Rat :=
  fun _ => Except.error (ExchangeError.make "price oracle unused" none none)

/-- C6 counterexample: with `symbol` absent and `quantity = 0`, `validateOrder`
fails with `InvalidOrderError "Symbol is required"` — the symbol check runs
before the quantity check — and not with the quantity message the claim
demands regardless of the other fields. -/
theorem c6_counterexample :
    validateOrder stubGetBalance stubGetPrice
      { symbol := none, side := some "buy", type := some "market", quantity := some 0 }
      false
      = Except.error (InvalidOrderError "Symbol is required")
  ∧ validateOrder stubGetBalance stubGetPrice
      { symbol := none, side := some "buy", type := some "market", quantity := some 0 }
      false
      ≠ Except.error (InvalidOrderError "Quantity must be greater than 0") := by
  refine ⟨rfl, ?_⟩
  intro h
  have hmsg : "Symbol is required" = "Quantity must be greater than 0" := by
    have h2 := Except.error.inj (rfl.trans h :
      (Except.error (InvalidOrderError "Symbol is required") :
        Except ExchangeError Unit)
        = Except.error (InvalidOrderError "Quantity must be greater than 0"))
    exact congrArg ExchangeError.message h2
  exact absurd hmsg (by decide)

/-- C6 amended: for every `OrderParams` whose `symbol`, `side` and `type` are
present (truthy) and whose `quantity` is absent or ≤ 0, `validateOrder` fails
with `InvalidOrderError "Quantity must be greater than 0"`, for either value
of `skipBalanceCheck` and regardless of whether `side` or `type` hold valid
enum values and regardless of `price`; when `symbol`, `side` or `type` is
absent, the corresponding earlier structural error wins instead. -/
theorem c6_quantity_amended
    (gb : String → Except ExchangeError BalanceRec)
    (gcp : String → Except ExchangeError Rat)
    (p : OrderParams) (skip : Bool)
    (hsym : ¬ p.symbol.getD "" = "")
    (hside : ¬ p.side.getD "" = "")
    (htype : ¬ p.type.getD "" = "")
    (hq : p.quantity.getD 0 ≤ 0) :
    validateOrder gb gcp p skip
      = Except.error (InvalidOrderError "Quantity must be greater than 0") := by
  simp only [validateOrder, structuralCheck, if_neg hsym, if_neg hside, if_neg htype,
    if_pos hq]

/-- C6 witness: a concrete order with an invalid `side`, an invalid `type`
and a negative quantity is rejected with the quantity message. -/
theorem c6_quantity_amended_witness :
    validateOrder stubGetBalance stubGetPrice
      { symbol := some "BTC-USDT", side := some "foo", type := some "bar",
        quantity := some (-1), price := some 7 }
      false
      = Except.error (InvalidOrderError "Quantity must be greater than 0") :=
  c6_quantity_amended stubGetBalance stubGetPrice
    { symbol := some "BTC-USDT", side := some "foo", type := some "bar",
      quantity := some (-1), price := some 7 }
    false (by decide) (by decide) (by decide) (by decide)

/-- From a successful structural check: the limit-price guard (step 7) did
not fire. -/
theorem structuralCheck_ok_price (p : OrderParams)
    (h : structuralCheck p = Except.ok ()) :
    ¬(jsToLower (p.type.getD "") = "limit" ∧ p.price.getD 0 ≤ 0) := by
  intro hc
  simp only [structuralCheck] at h
  repeat' split at h
  all_goals exact Except.noConfusion h

/-- C2: for every `OrderParams` that passes the structural checks (steps 1-7),
with `side` and `type` holding their declared enum values and with
`skipBalanceCheck` unset, `validateOrder` fetches via `getBalance` the quote
asset's balance when `side = buy` and the base asset's balance otherwise
(symbol split on `-`), takes the reference price to be `params.price` for a
limit order (whose price step 7 guarantees present) and `getCurrentPrice`'s
result for a market order, computes the required amount as
`quantity × referencePrice` when `side = buy` and `quantity` otherwise, and
fails with `InsufficientFundsError` carrying the interpolated message exactly
when `balance.free < requiredAmount`; otherwise validation succeeds. -/
theorem c2_validateOrder_balance
    (gb : String → Except ExchangeError BalanceRec)
    (gcp : String → Except ExchangeError Rat)
    (p : OrderParams) (bal : BalanceRec) (refP : Rat)
    (hside : p.side = some "buy" ∨ p.side = some "sell")
    (htype : p.type = some "market" ∨ p.type = some "limit")
    (hstruct : structuralCheck p = Except.ok ())
    (hbal : gb (requiredAsset p) = Except.ok bal)
    (href : referencePrice gcp p = Except.ok refP) :
    (validateOrder gb gcp p false =
      if bal.free < requiredAmount p refP then
        Except.error (InsufficientFundsError
          (insufficientMsg (requiredAsset p) (requiredAmount p refP) bal.free))
      else Except.ok ())
  ∧ (p.side = some "buy" →
       requiredAsset p = quoteAssetOf p
     ∧ requiredAmount p refP = p.quantity.getD 0 * refP)
  ∧ (p.side = some "sell" →
       requiredAsset p = baseAssetOf p
     ∧ requiredAmount p refP = p.quantity.getD 0)
  ∧ (∀ pr, p.type = some "limit" → p.price = some pr → refP = pr)
  ∧ (p.type = some "market" → gcp (p.symbol.getD "") = Except.ok refP) := by
  refine ⟨?_, ?_, ?_, ?_, ?_⟩
  · rw [validateOrder, hstruct]
    simp [balanceCheck, hbal, href, balanceCatch_insufficient]
  · intro hb
    rw [requiredAsset, requiredAmount, if_pos hb, if_pos hb]
    exact ⟨rfl, rfl⟩
  · intro hs
    have hne : ¬ p.side = some "buy" := by rw [hs]; decide
    rw [requiredAsset, requiredAmount, if_neg hne, if_neg hne]
    exact ⟨rfl, rfl⟩
  · intro pr ht hpr
    have hm : ¬ p.type = some "market" := by rw [ht]; decide
    have hlim : jsToLower (p.type.getD "") = "limit" := by rw [ht]; decide
    have hp := structuralCheck_ok_price p hstruct
    have hpos : ¬ p.price.getD 0 ≤ 0 := fun hle => hp ⟨hlim, hle⟩
    have hz : ¬ p.price.getD 0 = 0 := fun hz => hpos (le_of_eq hz)
    rw [referencePrice, if_neg (by exact fun hor => hor.elim hm hz)] at href
    have := Except.ok.inj href
    rw [hpr] at this
    exact this.symm
  · intro ht
    rw [referencePrice, if_pos (Or.inl ht)] at href
    exact href

/-- Concrete `getBalance` oracle for the C2 witness: BTC balance with 1 free. -/
def c2GetBalance : String → Except ExchangeError BalanceRec :=
  fun a =>
    if a = "BTC" then Except.ok { asset := "BTC", free := 1, locked := 0, total := 1 }
    else Except.error (InvalidOrderError ("Balance not found for asset " ++ a))

/-- Concrete `getCurrentPrice` oracle for the C2 witness. -/
def c2GetPrice : String → Except ExchangeError Rat := fun _ => Except.ok 100

/-- Concrete limit sell order for the C2 witness: 2 BTC required (quantity),
but only 1 BTC free. -/
def c2Params : OrderParams :=
  { symbol := some "BTC-USDT", side := some "sell", type := some "limit",
    quantity := some 2, price := some 3 }

/-- C2 witness: on the concrete underfunded limit sell, `validateOrder` fails
with the interpolated `InsufficientFundsError` on the base asset. -/
theorem c2_validateOrder_balance_witness :
    validateOrder c2GetBalance c2GetPrice c2Params false
      = Except.error (InsufficientFundsError (insufficientMsg "BTC" 2 1)) := by
  have h := c2_validateOrder_balance c2GetBalance c2GetPrice c2Params
    { asset := "BTC", free := 1, locked := 0, total := 1 } 3
    (Or.inr rfl) (Or.inr rfl) rfl rfl rfl
  rw [h.1]
  rfl

/-- The adapter capability used by the order-closing methods: the abstract
`getOrder` / `cancelOrder` / `createOrder` the concrete exchange implements.
`getOrder` may produce a missing order (`none`, a null-ish result) and any
call may fail with an arbitrary JS failure. -/
structure Adapter where
  getOrder : String → String → Except JSError (Option Order)
  cancelOrder : String → String → Except JSError Bool
  createOrder : OrderParams → Except JSError Order

/-- One outbound adapter call, recorded in order of execution. -/
inductive AdapterCall where
  | getOrderCall (symbol orderId : String)
  | cancelOrderCall (symbol orderId : String)
  | createOrderCall (params : OrderParams)
deriving DecidableEq, Repr

/-- The `catch` of `closeOrderMarket` / `closeOrderLimit`:
`if (error instanceof InvalidOrderError) throw error;
throw this.handleError(error, defaultMessage)`. -/
def closeCatch (e : JSError) (defaultMessage : String) : ExchangeError :=
  match e with
  | JSError.taxonomy te =>
    if te.name = ErrorName.invalidOrderError then te
    else handleError (JSError.taxonomy te) defaultMessage
  | other => handleError other defaultMessage

/-- The close order built by `closeOrderMarket`: side reversed
(`order.side === 'buy' ? 'sell' : 'buy'`), `type: 'market'`,
`quantity: order.remainingQuantity`, `symbol: order.symbol`. -/
def closeMarketParams (order : Order) : OrderParams :=
  { symbol := some order.symbol,
    side := some (if order.side = "buy" then "sell" else "buy"),
    type := some "market",
    quantity := some order.remainingQuantity }

/-- The close order built by `closeOrderLimit`: as for the market close but
`type: 'limit'`, the explicit `price` argument and `timeInForce: 'GTC'`. -/
def closeLimitParams (order : Order) (price : Rat) : OrderParams :=
  { symbol := some order.symbol,
    side := some (if order.side = "buy" then "sell" else "buy"),
    type := some "limit",
    quantity := some order.remainingQuantity,
    price := some price,
    timeInForce := some "GTC" }

/-- `BaseExchange.closeOrderMarket(symbol, orderId)`: fetch the order, fail
with `InvalidOrderError "Order not found"` when it or its id is absent,
cancel it, then submit the reversed market order. Returns the result together
with the trace of adapter calls performed. -/
def closeOrderMarket (ad : Adapter) (symbol orderId : String) :
    Except ExchangeError Order × List AdapterCall :=
  match ad.getOrder symbol orderId with
  | Except.error e =>
    (Except.error (closeCatch e "Failed to close order at market price"),
     [AdapterCall.getOrderCall symbol orderId])
  | Except.ok none =>
    (Except.error (InvalidOrderError "Order not found"),
     [AdapterCall.getOrderCall symbol orderId])
  | Except.ok (some order) =>
    if order.orderId = "" then
      (Except.error (InvalidOrderError "Order not found"),
       [AdapterCall.getOrderCall symbol orderId])
    else
      match ad.cancelOrder symbol orderId with
      | Except.error e =>
        (Except.error (closeCatch e "Failed to close order at market price"),
         [AdapterCall.getOrderCall symbol orderId,
          AdapterCall.cancelOrderCall symbol orderId])
      | Except.ok _ =>
        match ad.createOrder (closeMarketParams order) with
        | Except.error e =>
          (Except.error (closeCatch e "Failed to close order at market price"),
           [AdapterCall.getOrderCall symbol orderId,
            AdapterCall.cancelOrderCall symbol orderId,
            AdapterCall.createOrderCall (closeMarketParams order)])
        | Except.ok o =>
          (Except.ok o,
           [AdapterCall.getOrderCall symbol orderId,
            AdapterCall.cancelOrderCall symbol orderId,
            AdapterCall.createOrderCall (closeMarketParams order)])

/-- `BaseExchange.closeOrderLimit(symbol, orderId, price)`: identical flow to
`closeOrderMarket` but with the limit close order and its default message. -/
def closeOrderLimit (ad : Adapter) (symbol orderId : String) (price : Rat) :
    Except ExchangeError Order × List AdapterCall :=
  match ad.getOrder symbol orderId with
  | Except.error e =>
    (Except.error (closeCatch e "Failed to close order at limit price"),
     [AdapterCall.getOrderCall symbol orderId])
  | Except.ok none =>
    (Except.error (InvalidOrderError "Order not found"),
     [AdapterCall.getOrderCall symbol orderId])
  | Except.ok (some order) =>
    if order.orderId = "" then
      (Except.error (InvalidOrderError "Order not found"),
       [AdapterCall.getOrderCall symbol orderId])
    else
      match ad.cancelOrder symbol orderId with
      | Except.error e =>
        (Except.error (closeCatch e "Failed to close order at limit price"),
         [AdapterCall.getOrderCall symbol orderId,
          AdapterCall.cancelOrderCall symbol orderId])
      | Except.ok _ =>
        match ad.createOrder (closeLimitParams order price) with
        | Except.error e =>
          (Except.error (closeCatch e "Failed to close order at limit price"),
           [AdapterCall.getOrderCall symbol orderId,
            AdapterCall.cancelOrderCall symbol orderId,
            AdapterCall.createOrderCall (closeLimitParams order price)])
        | Except.ok o =>
          (Except.ok o,
           [AdapterCall.getOrderCall symbol orderId,
            AdapterCall.cancelOrderCall symbol orderId,
            AdapterCall.createOrderCall (closeLimitParams order price)])

/-- C3: when `adapter.getOrder` yields an order with a non-empty id and the
cancellation succeeds, `closeOrderMarket` first cancels the order and then
submits via `createOrder` a close order with the side reversed (buy becomes
sell, sell becomes buy), `type = market`, quantity equal to the fetched
order's `remainingQuantity` and the fetched order's symbol. -/
theorem c3_closeOrderMarket_spec (ad : Adapter) (symbol orderId : String)
    (order : Order) (b : Bool)
    (hget : ad.getOrder symbol orderId = Except.ok (some order))
    (hid : ¬ order.orderId = "")
    (hcancel : ad.cancelOrder symbol orderId = Except.ok b) :
    (closeOrderMarket ad symbol orderId).2 =
      [AdapterCall.getOrderCall symbol orderId,
       AdapterCall.cancelOrderCall symbol orderId,
       AdapterCall.createOrderCall (closeMarketParams order)]
  ∧ (closeOrderMarket ad symbol orderId).1 =
      (match ad.createOrder (closeMarketParams order) with
       | Except.ok o => Except.ok o
       | Except.error e =>
         Except.error (closeCatch e "Failed to close order at market price"))
  ∧ (closeMarketParams order).symbol = some order.symbol
  ∧ (closeMarketParams order).type = some "market"
  ∧ (closeMarketParams order).quantity = some order.remainingQuantity
  ∧ (order.side = "buy" → (closeMarketParams order).side = some "sell")
  ∧ (order.side = "sell" → (closeMarketParams order).side = some "buy") := by
  refine ⟨?_, ?_, rfl, rfl, rfl, ?_, ?_⟩
  · cases hcr : ad.createOrder (closeMarketParams order) <;>
      simp [closeOrderMarket, hget, hid, hcancel, hcr]
  · cases hcr : ad.createOrder (closeMarketParams order) <;>
      simp [closeOrderMarket, hget, hid, hcancel, hcr]
  · intro h; simp [closeMarketParams, h]
  · intro h; simp [closeMarketParams, h]

/-- C4: as C3 but for `closeOrderLimit`: the close order is `type = limit`,
carries the explicit price argument and `timeInForce = GTC`. -/
theorem c4_closeOrderLimit_spec (ad : Adapter) (symbol orderId : String)
    (price : Rat) (order : Order) (b : Bool)
    (hget : ad.getOrder symbol orderId = Except.ok (some order))
    (hid : ¬ order.orderId = "")
    (hcancel : ad.cancelOrder symbol orderId = Except.ok b) :
    (closeOrderLimit ad symbol orderId price).2 =
      [AdapterCall.getOrderCall symbol orderId,
       AdapterCall.cancelOrderCall symbol orderId,
       AdapterCall.createOrderCall (closeLimitParams order price)]
  ∧ (closeOrderLimit ad symbol orderId price).1 =
      (match ad.createOrder (closeLimitParams order price) with
       | Except.ok o => Except.ok o
       | Except.error e =>
         Except.error (closeCatch e "Failed to close order at limit price"))
  ∧ (closeLimitParams order price).symbol = some order.symbol
  ∧ (closeLimitParams order price).type = some "limit"
  ∧ (closeLimitParams order price).quantity = some order.remainingQuantity
  ∧ (closeLimitParams order price).price = some price
  ∧ (closeLimitParams order price).timeInForce = some "GTC"
  ∧ (order.side = "buy" → (closeLimitParams order price).side = some "sell")
  ∧ (order.side = "sell" → (closeLimitParams order price).side = some "buy") := by
  refine ⟨?_, ?_, rfl, rfl, rfl, rfl, rfl, ?_, ?_⟩
  · cases hcr : ad.createOrder (closeLimitParams order price) <;>
      simp [closeOrderLimit, hget, hid, hcancel, hcr]
  · cases hcr : ad.createOrder (closeLimitParams order price) <;>
      simp [closeOrderLimit, hget, hid, hcancel, hcr]
  · intro h; simp [closeLimitParams, h]
  · intro h; simp [closeLimitParams, h]

/-- C5: when `adapter.getOrder` produces no order or an order with an absent
id, both closing methods fail with exactly `InvalidOrderError "Order not
found"` (the locally thrown error, not a rewrapped one), and the trace shows
that neither `cancelOrder` nor `createOrder` was attempted. -/
theorem c5_orderNotFound_spec (ad : Adapter) (symbol orderId : String)
    (price : Rat)
    (h : ad.getOrder symbol orderId = Except.ok none
       ∨ ∃ o, ad.getOrder symbol orderId = Except.ok (some o) ∧ o.orderId = "") :
    (closeOrderMarket ad symbol orderId).1
      = Except.error (InvalidOrderError "Order not found")
  ∧ (closeOrderMarket ad symbol orderId).2 = [AdapterCall.getOrderCall symbol orderId]
  ∧ (closeOrderLimit ad symbol orderId price).1
      = Except.error (InvalidOrderError "Order not found")
  ∧ (closeOrderLimit ad symbol orderId price).2
      = [AdapterCall.getOrderCall symbol orderId] := by
  rcases h with hnone | ⟨o, ho, hoid⟩
  · exact ⟨by simp [closeOrderMarket, hnone], by simp [closeOrderMarket, hnone],
      by simp [closeOrderLimit, hnone], by simp [closeOrderLimit, hnone]⟩
  · exact ⟨by simp [closeOrderMarket, ho, hoid], by simp [closeOrderMarket, ho, hoid],
      by simp [closeOrderLimit, ho, hoid], by simp [closeOrderLimit, ho, hoid]⟩

/-- A concrete open buy order with `remainingQuantity = 0.1`, as in the
spec's round-trip scenario. -/
def demoOrder : Order :=
  { orderId := "o1", symbol := "BTC-USDT", side := "buy", type := "limit",
    quantity := 1/10, price := some 50000, timeInForce := some "GTC",
    status := "new", filledQuantity := 0, remainingQuantity := 1/10,
    avgPrice := 0, timestamp := 1 }

/-- A concrete adapter: `getOrder` knows only order `o1` (anything else is a
null-ish result), cancellation succeeds, `createOrder` echoes the params as a
fresh order. -/
def demoAdapter : Adapter :=
  { getOrder := fun _ oid =>
      if oid = "o1" then Except.ok (some demoOrder) else Except.ok none,
    cancelOrder := fun _ _ => Except.ok true,
    createOrder := fun p => Except.ok
      { orderId := "o2", symbol := p.symbol.getD "", side := p.side.getD "",
        type := p.type.getD "", quantity := p.quantity.getD 0, price := p.price,
        timeInForce := p.timeInForce, status := "new", filledQuantity := 0,
        remainingQuantity := p.quantity.getD 0, avgPrice := 0, timestamp := 2 } }

/-- C3 witness: closing the concrete buy order with `remainingQuantity = 0.1`
at market submits a close order with side `sell`, type `market` and quantity
`0.1`, after `getOrder` and `cancelOrder`. -/
theorem c3_closeOrderMarket_spec_witness :
    (closeOrderMarket demoAdapter "BTC-USDT" "o1").2 =
      [AdapterCall.getOrderCall "BTC-USDT" "o1",
       AdapterCall.cancelOrderCall "BTC-USDT" "o1",
       AdapterCall.createOrderCall (closeMarketParams demoOrder)]
  ∧ (closeMarketParams demoOrder).side = some "sell"
  ∧ (closeMarketParams demoOrder).type = some "market"
  ∧ (closeMarketParams demoOrder).quantity = some (1/10 : Rat) := by
  have h := c3_closeOrderMarket_spec demoAdapter "BTC-USDT" "o1" demoOrder true
    rfl (by decide) rfl
  exact ⟨h.1, h.2.2.2.2.2.1 rfl, h.2.2.2.1, h.2.2.2.2.1⟩

/-- C4 witness: closing the same order at limit price 51000 submits a close
order with side `sell`, type `limit`, quantity `0.1`, price `51000` and
`timeInForce = GTC`. -/
theorem c4_closeOrderLimit_spec_witness :
    (closeOrderLimit demoAdapter "BTC-USDT" "o1" 51000).2 =
      [AdapterCall.getOrderCall "BTC-USDT" "o1",
       AdapterCall.cancelOrderCall "BTC-USDT" "o1",
       AdapterCall.createOrderCall (closeLimitParams demoOrder 51000)]
  ∧ (closeLimitParams demoOrder 51000).side = some "sell"
  ∧ (closeLimitParams demoOrder 51000).type = some "limit"
  ∧ (closeLimitParams demoOrder 51000).quantity = some (1/10 : Rat)
  ∧ (closeLimitParams demoOrder 51000).price = some 51000
  ∧ (closeLimitParams demoOrder 51000).timeInForce = some "GTC" := by
  have h := c4_closeOrderLimit_spec demoAdapter "BTC-USDT" "o1" 51000 demoOrder true
    rfl (by decide) rfl
  exact ⟨h.1, h.2.2.2.2.2.2.2.1 rfl, h.2.2.2.1, h.2.2.2.2.1, h.2.2.2.2.2.1,
    h.2.2.2.2.2.2.1⟩

/-- C5 witness: closing the unknown order id `non-existent-id` fails with
`InvalidOrderError "Order not found"` for both methods, with only the
`getOrder` call in the trace. -/
theorem c5_orderNotFound_spec_witness :
    (closeOrderMarket demoAdapter "BTC-USDT" "non-existent-id").1
      = Except.error (InvalidOrderError "Order not found")
  ∧ (closeOrderMarket demoAdapter "BTC-USDT" "non-existent-id").2
      = [AdapterCall.getOrderCall "BTC-USDT" "non-existent-id"]
  ∧ (closeOrderLimit demoAdapter "BTC-USDT" "non-existent-id" 50000).1
      = Except.error (InvalidOrderError "Order not found")
  ∧ (closeOrderLimit demoAdapter "BTC-USDT" "non-existent-id" 50000).2
      = [AdapterCall.getOrderCall "BTC-USDT" "non-existent-id"] :=
  c5_orderNotFound_spec demoAdapter "BTC-USDT" "non-existent-id" 50000
    (Or.inl rfl)

/-- `Hyperliquid.createOrder(params)`: `await this.validateOrder(params)`
runs first and outside the try, so its taxonomy error propagates raw; then
the signed POST via `makeRequest`, whose failure is funnelled through
`handleError(error, 'Failed to create order')`. The wire call plus response
transformation is abstracted as `submit`. -/
def hyperliquidCreateOrder
    (gb : String → Except ExchangeError BalanceRec)
    (gcp : String → Except ExchangeError Rat)
    (submit : OrderParams → Except JSError Order)
    (p : OrderParams) : Except JSError Order :=
  match validateOrder gb gcp p false with
  | Except.error e => Except.error (JSError.taxonomy e)
  | Except.ok _ =>
    match submit p with
    | Except.error e =>
      Except.error (JSError.taxonomy (handleError e "Failed to create order"))
    | Except.ok o => Except.ok o

/-- C10: on an adapter whose `createOrder` first runs `validateOrder` (as
Hyperliquid's does), closing at market an order that was fetched with a
non-empty id but `remainingQuantity = 0` cancels the order and then fails
with `InvalidOrderError "Quantity must be greater than 0"` from the close
order's validation; the trace shows the cancellation happened and nothing
rolls it back. -/
theorem c10_closeFilledOrder_spec
    (gb : String → Except ExchangeError BalanceRec)
    (gcp : String → Except ExchangeError Rat)
    (submit : OrderParams → Except JSError Order)
    (getOrd : String → String → Except JSError (Option Order))
    (cancel : String → String → Except JSError Bool)
    (symbol orderId : String) (order : Order) (b : Bool)
    (hget : getOrd symbol orderId = Except.ok (some order))
    (hid : ¬ order.orderId = "")
    (hsym : ¬ order.symbol = "")
    (hrem : order.remainingQuantity = 0)
    (hcancel : cancel symbol orderId = Except.ok b) :
    (closeOrderMarket
        { getOrder := getOrd, cancelOrder := cancel,
          createOrder := hyperliquidCreateOrder gb gcp submit }
        symbol orderId).1
      = Except.error (InvalidOrderError "Quantity must be greater than 0")
  ∧ (closeOrderMarket
        { getOrder := getOrd, cancelOrder := cancel,
          createOrder := hyperliquidCreateOrder gb gcp submit }
        symbol orderId).2
      = [AdapterCall.getOrderCall symbol orderId,
         AdapterCall.cancelOrderCall symbol orderId,
         AdapterCall.createOrderCall (closeMarketParams order)] := by
  have hs0 : ¬ ((closeMarketParams order).symbol.getD "" = "") := by
    simpa [closeMarketParams] using hsym
  have hside0 : ¬ ((closeMarketParams order).side.getD "" = "") := by
    simp only [closeMarketParams, Option.getD_some]
    split <;> decide
  have htype0 : ¬ ((closeMarketParams order).type.getD "" = "") := by
    simp [closeMarketParams]
  have hq0 : (closeMarketParams order).quantity.getD 0 ≤ 0 := by
    simp [closeMarketParams, hrem]
  have hval : validateOrder gb gcp (closeMarketParams order) false
      = Except.error (InvalidOrderError "Quantity must be greater than 0") := by
    simp only [validateOrder, structuralCheck, if_neg hs0, if_neg hside0,
      if_neg htype0, if_pos hq0]
  have hcreate : hyperliquidCreateOrder gb gcp submit (closeMarketParams order)
      = Except.error (JSError.taxonomy
          (InvalidOrderError "Quantity must be greater than 0")) := by
    simp [hyperliquidCreateOrder, hval]
  constructor
  · simp [closeOrderMarket, hget, hid, hcancel, hcreate, closeCatch,
      InvalidOrderError]
  · simp [closeOrderMarket, hget, hid, hcancel, hcreate]

/-- The fetched order for the C10 witness: fully filled, so
`remainingQuantity = 0`. -/
def filledOrder : Order :=
  { orderId := "o1", symbol := "BTC-USDT", side := "buy", type := "limit",
    quantity := 1/10, price := some 50000, timeInForce := some "GTC",
    status := "filled", filledQuantity := 1/10, remainingQuantity := 0,
    avgPrice := 50000, timestamp := 3 }

/-- `getOrder` oracle for the C10 witness. -/
def c10GetOrder : String → String → Except JSError (Option Order) :=
  fun _ oid => if oid = "o1" then Except.ok (some filledOrder) else Except.ok none

/-- `cancelOrder` oracle for the C10 witness. -/
def c10Cancel : String → String → Except JSError Bool :=
  fun _ _ => Except.ok true

/-- Wire-call oracle for the C10 witness (never reached: validation fails
first). -/
def stubSubmit : OrderParams → Except JSError Order :=
  fun _ => Except.error JSError.nonError

/-- C10 witness: closing the concrete fully filled order cancels it and then
fails with the quantity validation error. -/
theorem c10_closeFilledOrder_spec_witness :
    (closeOrderMarket
        { getOrder := c10GetOrder, cancelOrder := c10Cancel,
          createOrder := hyperliquidCreateOrder stubGetBalance stubGetPrice stubSubmit }
        "BTC-USDT" "o1").1
      = Except.error (InvalidOrderError "Quantity must be greater than 0")
  ∧ (closeOrderMarket
        { getOrder := c10GetOrder, cancelOrder := c10Cancel,
          createOrder := hyperliquidCreateOrder stubGetBalance stubGetPrice stubSubmit }
        "BTC-USDT" "o1").2
      = [AdapterCall.getOrderCall "BTC-USDT" "o1",
         AdapterCall.cancelOrderCall "BTC-USDT" "o1",
         AdapterCall.createOrderCall (closeMarketParams filledOrder)] :=
  c10_closeFilledOrder_spec stubGetBalance stubGetPrice stubSubmit
    c10GetOrder c10Cancel "BTC-USDT" "o1" filledOrder true
    rfl (by decide) (by decide) rfl rfl

/-- The parsed JSON body fields `makeRequest` inspects: `data.error` and
`data.code`. -/
structure RespBody where
  error : Option String := none
  code : Option String := none
deriving DecidableEq, Repr

/-- An HTTP response: status code plus the body (`none` when
`response.json()` fails to parse). -/
structure HttpResponse where
  status : Nat
  body : Option RespBody
deriving DecidableEq, Repr

/-- The outcome of `fetch`: rejection with an `Error` whose message is given
(unreachable host), or a response. -/
inductive FetchOutcome where
  | networkFailure (message : String)
  | response (r : HttpResponse)
deriving DecidableEq, Repr

/-- `response.ok`: status in the 200-299 range. -/
def responseOk (status : Nat) : Bool :=
  decide (200 ≤ status) && decide (status ≤ 299)

/-- Whether `pat` starts `cs`. -/
def leadsWith : List Char → List Char → Bool
  | [], _ => true
  | _ :: _, [] => false
  | p :: ps, c :: cs => p = c && leadsWith ps cs

/-- Whether `pat` occurs somewhere in the character list. -/
def hasSub (pat : List Char) : List Char → Bool
  | [] => leadsWith pat []
  | c :: cs => leadsWith pat (c :: cs) || hasSub pat cs

/-- `url.includes('/orders/')`. -/
def urlIncludesOrders (url : String) : Bool :=
  hasSub "/orders/".data url.data

/-- JS `data.error || d`: absent or empty `error` field falls back to `d`. -/
def dataOr (o : Option String) (d : String) : String :=
  match o with
  | none => d
  | some s => strOr s d

/-- `makeRequest(url, method, headers, body?)` from `src/utils/request.ts`,
as a function of the fetch outcome (method, headers and request body only
shape the wire call, which the outcome already summarizes). The outer
`catch` rethrows the four taxonomy kinds unchanged, so every thrown error is
already a taxonomy value. -/
def makeRequest (url : String) (outcome : FetchOutcome) :
    Except ExchangeError RespBody :=
  match outcome with
  | FetchOutcome.networkFailure msg =>
    Except.error (ExchangeError.make msg (some "NETWORK_ERROR") (some 500))
  | FetchOutcome.response r =>
    if responseOk r.status = false ∧ r.status = 0 then
      Except.error (ExchangeError.make "Network error: Unable to reach server"
        (some "NETWORK_ERROR") none)
    else
      match r.body with
      | none =>
        Except.error (ExchangeError.make "Invalid response format"
          (some "INVALID_RESPONSE") none)
      | some data =>
        if r.status = 404 then
          if urlIncludesOrders url then
            Except.error (InvalidOrderError (dataOr data.error "Order not found"))
          else
            Except.error (ExchangeError.make (dataOr data.error "Resource not found")
              (some "NOT_FOUND") none)
        else if r.status = 401 ∨ data.code = some "AUTH_ERROR" then
          Except.error (AuthenticationError (dataOr data.error "Authentication failed"))
        else if responseOk r.status = false ∨ ¬ (data.error.getD "" = "") then
          match data.code with
          | some "INVALID_ORDER" =>
            Except.error (InvalidOrderError (dataOr data.error "Invalid order parameters"))
          | some "INSUFFICIENT_FUNDS" =>
            Except.error (InsufficientFundsError
              (dataOr data.error "Insufficient funds for the operation"))
          | some "INVALID_SYMBOL" =>
            Except.error (InvalidOrderError (dataOr data.error "Invalid trading symbol"))
          | some "NOT_FOUND" =>
            if urlIncludesOrders url then
              Except.error (InvalidOrderError (dataOr data.error "Order not found"))
            else
              Except.error (ExchangeError.make (dataOr data.error "Resource not found")
                (some "NOT_FOUND") none)
          | other =>
            Except.error (ExchangeError.make
              (dataOr data.error ("HTTP error! status: " ++ toString r.status))
              (some (strOr (other.getD "") "UNKNOWN_ERROR"))
              (some r.status))
        else
          Except.ok data

/-- The kind of the error a `makeRequest` result carries, if any. -/
def errName : Except ExchangeError RespBody → Option ErrorName
  | Except.error e => some e.name
  | Except.ok _ => none

/-- C7 counterexample: a 401 response whose body is unparsable is mapped to
`ExchangeError` with code `INVALID_RESPONSE` — the parse check runs before
the 401 check — and not to the `AuthenticationError` the claim requires for
every 401. -/
theorem c7_counterexample :
    makeRequest "https://api.example.com/balances"
        (FetchOutcome.response { status := 401, body := none })
      = Except.error (ExchangeError.make "Invalid response format"
          (some "INVALID_RESPONSE") none)
  ∧ errName (makeRequest "https://api.example.com/balances"
        (FetchOutcome.response { status := 401, body := none }))
      ≠ some ErrorName.authenticationError := by
  exact ⟨rfl, by decide⟩

/-- C7 amended: the clauses hold with the code's precedence: an unreachable
host yields `ExchangeError` with code `NETWORK_ERROR`; a status-0 response
yields `ExchangeError` with code `NETWORK_ERROR`; otherwise an unparsable
body yields `ExchangeError` with code `INVALID_RESPONSE` regardless of the
status; otherwise a 404 on an order-path URL yields `InvalidOrderError` and a
404 elsewhere `ExchangeError` with code `NOT_FOUND`; otherwise a 401 status
or a body carrying code `AUTH_ERROR` yields `AuthenticationError`. -/
theorem c7_makeRequest_amended (url : String) (oc : FetchOutcome) :
    (∀ m, oc = FetchOutcome.networkFailure m →
        makeRequest url oc
          = Except.error (ExchangeError.make m (some "NETWORK_ERROR") (some 500)))
  ∧ (∀ r, oc = FetchOutcome.response r → r.status = 0 →
        makeRequest url oc
          = Except.error (ExchangeError.make "Network error: Unable to reach server"
              (some "NETWORK_ERROR") none))
  ∧ (∀ r, oc = FetchOutcome.response r → r.body = none → ¬ r.status = 0 →
        makeRequest url oc
          = Except.error (ExchangeError.make "Invalid response format"
              (some "INVALID_RESPONSE") none))
  ∧ (∀ r data, oc = FetchOutcome.response r → r.status = 404 → r.body = some data →
        (urlIncludesOrders url = true →
          makeRequest url oc
            = Except.error (InvalidOrderError (dataOr data.error "Order not found")))
      ∧ (urlIncludesOrders url = false →
          makeRequest url oc
            = Except.error (ExchangeError.make (dataOr data.error "Resource not found")
                (some "NOT_FOUND") none)))
  ∧ (∀ r data, oc = FetchOutcome.response r → r.body = some data →
        ¬ r.status = 0 → ¬ r.status = 404 →
        (r.status = 401 ∨ data.code = some "AUTH_ERROR") →
        makeRequest url oc
          = Except.error (AuthenticationError (dataOr data.error "Authentication failed"))) := by
  refine ⟨?_, ?_, ?_, ?_, ?_⟩
  · rintro m rfl; rfl
  · rintro r rfl h0
    have hok : responseOk r.status = false := by rw [h0]; rfl
    simp only [makeRequest]
    rw [if_pos ⟨hok, h0⟩]
  · rintro r rfl hbody h0
    have hc : ¬ (responseOk r.status = false ∧ r.status = 0) := fun hc => h0 hc.2
    simp only [makeRequest, hbody]
    rw [if_neg hc]
  · rintro r data rfl h404 hbody
    have hc : ¬ (responseOk r.status = false ∧ r.status = 0) := by
      rw [h404]; rintro ⟨-, h⟩; exact absurd h (by decide)
    constructor
    · intro hurl
      simp only [makeRequest, hbody]
      rw [if_neg hc, if_pos h404, if_pos hurl]
    · intro hurl
      simp only [makeRequest, hbody]
      rw [if_neg hc, if_pos h404, if_neg (by simp [hurl])]
  · rintro r data rfl hbody h0 h404 hauth
    have hc : ¬ (responseOk r.status = false ∧ r.status = 0) := fun hc => h0 hc.2
    simp only [makeRequest, hbody]
    rw [if_neg hc, if_neg h404, if_pos hauth]

/-- C7 witness: a parsed 404 on an order-path URL yields
`InvalidOrderError "Order not found"`. -/
theorem c7_makeRequest_amended_witness :
    makeRequest "https://api.test/orders/42"
        (FetchOutcome.response { status := 404, body := some { error := none, code := none } })
      = Except.error (InvalidOrderError "Order not found") := by
  have h := ((c7_makeRequest_amended "https://api.test/orders/42"
      (FetchOutcome.response
        { status := 404, body := some { error := none, code := none } })).2.2.2.1
      { status := 404, body := some { error := none, code := none } }
      { error := none, code := none } rfl rfl rfl).1 (by decide)
  exact h
